import Mathlib

/-!
# Response contract of `controllers/moodle_controller.go`

A shallow embedding of the six gin handlers of `MoodleController`.

* A handler is a function `Context → Context`.  The context carries the raw
  request body and the ordered trace of what the handler did that is visible
  outside it: every delegate call on `moodleService` and every `c.JSON` write.
* The service is an interface; it is a parameter.  A Go method returning
  `(result, error)` is a function into `Value × Option GoError`, so that the
  result returned next to a non-nil error is still available (the status
  handler uses it).
* `c.ShouldBindJSON(&req)` is library code; its decoder is a parameter that
  returns either the bound request or the binding error.
* The record types of package `model/web` and the result values of package
  `services` are type parameters, bundled in `WebTypes`.
* `fmt.Println` and `log.Printf` write to the process log only and are not part
  of the trace.
* A Go `error` is consumed by the handlers through three observations only:
  `err.Error()`, `errors.Is(err, validation.ErrNotFound)` and the type assertion
  `err.(*web.MoodleException)`.  `GoError` records the outcome of these three,
  with no relation assumed between them.  The asserted pointer is taken to be
  non-nil.
-/

namespace MoodleApi

/-- The request records of package `model/web` and the result values handed
back by package `services`; both packages are external to the controller. -/
structure WebTypes where
  MoodleUserCreateRequest : Type
  MoodleUserGetByFieldRequest : Type
  MoodleUserUpdateRequest : Type
  MoodleUserSyncRequest : Type
  MoodleRoleAssignRequest : Type
  Value : Type

/-- The two fields of `web.MoodleException` that the controller reads. -/
structure MoodleException where
  ErrorCode : String
  Message : String
deriving DecidableEq, Repr

/-- A non-nil Go `error` value as the controller observes it. -/
structure GoError where
  /-- Text of `err.Error()`. -/
  Error : String
  /-- Outcome of `errors.Is(err, validation.ErrNotFound)`. -/
  isErrNotFound : Bool
  /-- Outcome of `err.(*web.MoodleException)`: `some` when the assertion holds. -/
  asMoodleException : Option MoodleException
deriving DecidableEq, Repr

/-- A Go `interface{}` as stored in `ApiResponse.Data`: `nil` (also the value
of a field left out of the literal), a string, or a service result. -/
inductive Any (V : Type) where
  | null : Any V
  | str (s : String) : Any V
  | val (v : V) : Any V
deriving DecidableEq, Repr

/-- The envelope `web.ApiResponse`. -/
structure ApiResponse (V : Type) where
  Code : String
  Message : String
  Data : Any V
deriving DecidableEq, Repr

namespace http

def StatusOK : Nat := 200
def StatusBadRequest : Nat := 400
def StatusNotFound : Nat := 404
def StatusInternalServerError : Nat := 500

end http

/-- A method call on `services.MoodleService`, with its argument. -/
inductive Call (T : WebTypes) where
  | CheckStatus : Call T
  | CreateUser (req : T.MoodleUserCreateRequest) : Call T
  | GetUserByField (req : T.MoodleUserGetByFieldRequest) : Call T
  | UpdateUsers (req : List T.MoodleUserUpdateRequest) : Call T
  | UserSync (req : T.MoodleUserSyncRequest) : Call T
  | AssignRole (req : T.MoodleRoleAssignRequest) : Call T

/-- What a handler does that is visible outside it. -/
inductive Event (T : WebTypes) where
  | call (k : Call T) : Event T
  | JSON (code : Nat) (obj : ApiResponse T.Value) : Event T

/-- The interface `services.MoodleService`. -/
structure MoodleService (T : WebTypes) where
  CheckStatus : T.Value × Option GoError
  CreateUser : T.MoodleUserCreateRequest → T.Value × Option GoError
  GetUserByField : T.MoodleUserGetByFieldRequest → T.Value × Option GoError
  UpdateUsers : List T.MoodleUserUpdateRequest → Option GoError
  UserSync : T.MoodleUserSyncRequest → Option GoError
  AssignRole : T.MoodleRoleAssignRequest → Option GoError

structure MoodleController (T : WebTypes) where
  moodleService : MoodleService T

def NewMoodleController {T : WebTypes} (moodleService : MoodleService T) : MoodleController T :=
  ⟨moodleService⟩

/-- The decoders behind `c.ShouldBindJSON(&req)`, one per request type. -/
structure Binder (T : WebTypes) where
  MoodleUserCreateRequest : String → Except GoError T.MoodleUserCreateRequest
  MoodleUserGetByFieldRequest : String → Except GoError T.MoodleUserGetByFieldRequest
  MoodleUserUpdateRequests : String → Except GoError (List T.MoodleUserUpdateRequest)
  MoodleUserSyncRequest : String → Except GoError T.MoodleUserSyncRequest
  MoodleRoleAssignRequest : String → Except GoError T.MoodleRoleAssignRequest

/-- The part of `gin.Context` the handlers use. -/
structure Context (T : WebTypes) where
  body : String
  trace : List (Event T)

variable {T : WebTypes}

/-- Records `c.JSON(code, obj)`. -/
def Context.JSON (c : Context T) (code : Nat) (obj : ApiResponse T.Value) : Context T :=
  ⟨c.body, c.trace ++ [Event.JSON code obj]⟩

/-- Records a call on the service. -/
def Context.invoke (c : Context T) (k : Call T) : Context T :=
  ⟨c.body, c.trace ++ [Event.call k]⟩

def CheckStatus (s : MoodleController T) (c : Context T) : Context T :=
  let r := s.moodleService.CheckStatus
  let c := c.invoke Call.CheckStatus
  let c :=
    match r.2 with
    | some err =>
      c.JSON http.StatusInternalServerError ⟨"INTERNAL_SERVER_ERROR", err.Error, Any.null⟩
    | none => c
  c.JSON http.StatusOK ⟨"OK", "OK", Any.val r.1⟩

def CreateUser (s : MoodleController T) (b : Binder T) (c : Context T) : Context T :=
  match b.MoodleUserCreateRequest c.body with
  | Except.error err =>
    c.JSON http.StatusBadRequest ⟨"INVALID_PARAMS", err.Error, Any.null⟩
  | Except.ok req =>
    let r := s.moodleService.CreateUser req
    let c := c.invoke (Call.CreateUser req)
    match r.2 with
    | some err =>
      c.JSON http.StatusInternalServerError ⟨"INTERNAL_SERVER_ERROR", err.Error, Any.null⟩
    | none =>
      c.JSON http.StatusOK ⟨"OK", "OK", Any.val r.1⟩

def GetUserByField (s : MoodleController T) (b : Binder T) (c : Context T) : Context T :=
  match b.MoodleUserGetByFieldRequest c.body with
  | Except.error err =>
    c.JSON http.StatusBadRequest
      ⟨"INVALID_REQUEST_BODY", "Format body request tidak valid.", Any.str err.Error⟩
  | Except.ok req =>
    let r := s.moodleService.GetUserByField req
    let c := c.invoke (Call.GetUserByField req)
    match r.2 with
    | some err =>
      if err.isErrNotFound then
        c.JSON http.StatusNotFound ⟨"DATA_NOT_FOUND", err.Error, Any.null⟩
      else
        match err.asMoodleException with
        | some moodleErr =>
          c.JSON http.StatusBadRequest ⟨moodleErr.ErrorCode, moodleErr.Message, Any.null⟩
        | none =>
          c.JSON http.StatusInternalServerError
            ⟨"INTERNAL_SERVER_ERROR", "Terjadi kesalahan pada server.", Any.null⟩
    | none =>
      c.JSON http.StatusOK ⟨"OK", "OK", Any.val r.1⟩

def UpdateUser (s : MoodleController T) (b : Binder T) (c : Context T) : Context T :=
  match b.MoodleUserUpdateRequests c.body with
  | Except.error err =>
    c.JSON http.StatusBadRequest ⟨"INVALID_PARAMS", err.Error, Any.null⟩
  | Except.ok req =>
    let err := s.moodleService.UpdateUsers req
    let c := c.invoke (Call.UpdateUsers req)
    match err with
    | some err =>
      match err.asMoodleException with
      | some moodleErr =>
        c.JSON http.StatusBadRequest ⟨moodleErr.ErrorCode, moodleErr.Message, Any.null⟩
      | none =>
        c.JSON http.StatusInternalServerError
          ⟨"INTERNAL_SERVER_ERROR", "An internal error occurred", Any.str err.Error⟩
    | none =>
      c.JSON http.StatusOK ⟨"OK", "Users updated successfully", Any.null⟩

def UserSync (s : MoodleController T) (b : Binder T) (c : Context T) : Context T :=
  match b.MoodleUserSyncRequest c.body with
  | Except.error err =>
    c.JSON http.StatusBadRequest
      ⟨"INVALID_REQUEST", "Data yang dikirim tidak valid: " ++ err.Error, Any.null⟩
  | Except.ok req =>
    let err := s.moodleService.UserSync req
    let c := c.invoke (Call.UserSync req)
    match err with
    | some err =>
      c.JSON http.StatusBadRequest ⟨"USER_SYNC_FAILED", err.Error, Any.null⟩
    | none =>
      c.JSON http.StatusOK ⟨"OK", "User synced successfully", Any.null⟩

def AssignRole (s : MoodleController T) (b : Binder T) (c : Context T) : Context T :=
  match b.MoodleRoleAssignRequest c.body with
  | Except.error err =>
    c.JSON http.StatusBadRequest
      ⟨"INVALID_REQUEST", "Data yang dikirim tidak valid: " ++ err.Error, Any.null⟩
  | Except.ok req =>
    let err := s.moodleService.AssignRole req
    let c := c.invoke (Call.AssignRole req)
    match err with
    | some err =>
      c.JSON http.StatusBadRequest ⟨"USER_ASSIGN_FAILED", err.Error, Any.null⟩
    | none =>
      c.JSON http.StatusOK ⟨"OK", "User assigned successfully", Any.null⟩

/-- The response writes of a trace, in order. -/
def writes : List (Event T) → List (Nat × ApiResponse T.Value)
  | [] => []
  | Event.JSON code obj :: es => (code, obj) :: writes es
  | Event.call _ :: es => writes es

/-- The delegate calls of a trace, in order. -/
def calls : List (Event T) → List (Call T)
  | [] => []
  | Event.call k :: es => k :: calls es
  | Event.JSON _ _ :: es => calls es

/-- The trace a handler leaves when it stops at a binding failure `err`: a
single 400 write whose code is not "OK" and whose data is absent or the decode
error text, and no delegate call. -/
def RejectsBody (before after : List (Event T)) (err : GoError) : Prop :=
  ∃ obj : ApiResponse T.Value,
    after = before ++ [Event.JSON 400 obj] ∧
    obj.Code ≠ "OK" ∧
    (obj.Data = Any.null ∨ obj.Data = Any.str err.Error) ∧
    calls after = calls before

/-! ## Concrete requests, errors and services used to instantiate the theorems -/

/-- Every request record and every service result is a string. -/
@[reducible] def TextTypes : WebTypes :=
  ⟨String, String, String, String, String, String⟩

/-- A decode failure of the JSON body. -/
def errDecode : GoError := ⟨"unexpected end of JSON input", false, none⟩

/-- The bare not-found sentinel. -/
def errNotFound : GoError := ⟨"data tidak ditemukan", true, none⟩

/-- A structured exception that also matches the not-found sentinel. -/
def errNotFoundStructured : GoError :=
  ⟨"invaliduser: user tidak ditemukan", true, some ⟨"invaliduser", "user tidak ditemukan"⟩⟩

/-- A structured exception that does not match the not-found sentinel. -/
def errMoodle : GoError :=
  ⟨"invalidparameter: Invalid parameter value detected", false,
    some ⟨"invalidparameter", "Invalid parameter value detected"⟩⟩

/-- A structured exception with an empty error code. -/
def errMoodleEmptyCode : GoError := ⟨"webservice failure", false, some ⟨"", "webservice failure"⟩⟩

/-- An error that is neither the sentinel nor a structured exception. -/
def errOpaque : GoError := ⟨"dial tcp 10.0.0.7:443: connection refused", false, none⟩

/-- A service whose every method returns the same result and error. -/
def constService (v : String) (e : Option GoError) : MoodleController TextTypes :=
  NewMoodleController ⟨(v, e), fun _ => (v, e), fun _ => (v, e), fun _ => e, fun _ => e, fun _ => e⟩

/-- A binder that accepts every body: a single record is the body itself, the
update sequence is the given list. -/
def bindOk (batch : List String) : Binder TextTypes :=
  ⟨fun body => Except.ok body, fun body => Except.ok body, fun _ => Except.ok batch,
    fun body => Except.ok body, fun body => Except.ok body⟩

/-- A binder that rejects every body with the given error. -/
def bindFail (e : GoError) : Binder TextTypes :=
  ⟨fun _ => Except.error e, fun _ => Except.error e, fun _ => Except.error e,
    fun _ => Except.error e, fun _ => Except.error e⟩

/-- A fresh request context with the given body. -/
def request (body : String) : Context TextTypes := ⟨body, []⟩

/-! ## Lemmas on traces -/

@[simp] theorem writes_append (xs ys : List (Event T)) :
    writes (xs ++ ys) = writes xs ++ writes ys := by
  induction xs with
  | nil => rfl
  | cons x xs ih => cases x <;> simp [writes, ih]

@[simp] theorem calls_append (xs ys : List (Event T)) :
    calls (xs ++ ys) = calls xs ++ calls ys := by
  induction xs with
  | nil => rfl
  | cons x xs ih => cases x <;> simp [calls, ih]

@[simp] theorem writes_nil : writes ([] : List (Event T)) = [] := rfl

@[simp] theorem writes_call (k : Call T) (es : List (Event T)) :
    writes (Event.call k :: es) = writes es := rfl

@[simp] theorem writes_JSON (code : Nat) (obj : ApiResponse T.Value) (es : List (Event T)) :
    writes (Event.JSON code obj :: es) = (code, obj) :: writes es := rfl

@[simp] theorem calls_nil : calls ([] : List (Event T)) = [] := rfl

@[simp] theorem calls_call (k : Call T) (es : List (Event T)) :
    calls (Event.call k :: es) = k :: calls es := rfl

@[simp] theorem calls_JSON (code : Nat) (obj : ApiResponse T.Value) (es : List (Event T)) :
    calls (Event.JSON code obj :: es) = calls es := rfl

/-! ## Get-user-by-field: classification of a delegate failure -/

/-- C1: in `GetUserByField`, when the body binds and the delegate fails with an
error matching the not-found sentinel (whether or not it is also a structured
exception), the handler calls the delegate once and writes exactly one response:
404, code "DATA_NOT_FOUND", the error's own text as message, no data. -/
theorem GetUserByField_not_found (s : MoodleController T) (b : Binder T) (c : Context T)
    (req : T.MoodleUserGetByFieldRequest) (err : GoError)
    (hbind : b.MoodleUserGetByFieldRequest c.body = Except.ok req)
    (herr : (s.moodleService.GetUserByField req).2 = some err)
    (hnf : err.isErrNotFound = true) :
    (GetUserByField s b c).trace =
      c.trace ++ [Event.call (Call.GetUserByField req),
        Event.JSON 404 ⟨"DATA_NOT_FOUND", err.Error, Any.null⟩] := by
  simp [GetUserByField, hbind, herr, hnf, Context.JSON, Context.invoke, http.StatusNotFound]

theorem GetUserByField_not_found_witness :
    (bindOk []).MoodleUserGetByFieldRequest (request "email=missing@x.com").body
        = Except.ok "email=missing@x.com" ∧
      ((constService "" (some errNotFoundStructured)).moodleService.GetUserByField
        "email=missing@x.com").2 = some errNotFoundStructured ∧
      errNotFoundStructured.isErrNotFound = true ∧
      (GetUserByField (constService "" (some errNotFoundStructured)) (bindOk [])
          (request "email=missing@x.com")).trace =
        (request "email=missing@x.com").trace ++
          [Event.call (Call.GetUserByField "email=missing@x.com"),
            Event.JSON 404 ⟨"DATA_NOT_FOUND", errNotFoundStructured.Error, Any.null⟩] :=
  ⟨rfl, rfl, rfl,
    GetUserByField_not_found (constService "" (some errNotFoundStructured)) (bindOk [])
      (request "email=missing@x.com") "email=missing@x.com" errNotFoundStructured rfl rfl rfl⟩

/-- C2: in `GetUserByField`, when the body binds and the delegate fails with a
structured exception carrying code `X` and message `Y` (any strings, `X` may be
empty) that does not match the not-found sentinel, the handler writes exactly
one response: 400 with code `X` and message `Y` verbatim, no data. -/
theorem GetUserByField_structured (s : MoodleController T) (b : Binder T) (c : Context T)
    (req : T.MoodleUserGetByFieldRequest) (err : GoError) (X Y : String)
    (hbind : b.MoodleUserGetByFieldRequest c.body = Except.ok req)
    (herr : (s.moodleService.GetUserByField req).2 = some err)
    (hnf : err.isErrNotFound = false)
    (hex : err.asMoodleException = some ⟨X, Y⟩) :
    (GetUserByField s b c).trace =
      c.trace ++ [Event.call (Call.GetUserByField req), Event.JSON 400 ⟨X, Y, Any.null⟩] := by
  simp [GetUserByField, hbind, herr, hnf, hex, Context.JSON, Context.invoke,
    http.StatusBadRequest]

theorem GetUserByField_structured_witness :
    (bindOk []).MoodleUserGetByFieldRequest (request "id=7").body = Except.ok "id=7" ∧
      ((constService "" (some errMoodleEmptyCode)).moodleService.GetUserByField "id=7").2
        = some errMoodleEmptyCode ∧
      errMoodleEmptyCode.isErrNotFound = false ∧
      errMoodleEmptyCode.asMoodleException = some ⟨"", "webservice failure"⟩ ∧
      (GetUserByField (constService "" (some errMoodleEmptyCode)) (bindOk [])
          (request "id=7")).trace =
        (request "id=7").trace ++
          [Event.call (Call.GetUserByField "id=7"),
            Event.JSON 400 ⟨"", "webservice failure", Any.null⟩] :=
  ⟨rfl, rfl, rfl, rfl,
    GetUserByField_structured (constService "" (some errMoodleEmptyCode)) (bindOk [])
      (request "id=7") "id=7" errMoodleEmptyCode "" "webservice failure" rfl rfl rfl rfl⟩

/-- C3: in `GetUserByField`, when the body binds and the delegate fails with an
error that neither matches the not-found sentinel nor is a structured
exception, the handler writes exactly one response: 500, code
"INTERNAL_SERVER_ERROR", message "Terjadi kesalahan pada server.", no data.
The envelope is a constant: the error's text does not occur in it. -/
theorem GetUserByField_opaque (s : MoodleController T) (b : Binder T) (c : Context T)
    (req : T.MoodleUserGetByFieldRequest) (err : GoError)
    (hbind : b.MoodleUserGetByFieldRequest c.body = Except.ok req)
    (herr : (s.moodleService.GetUserByField req).2 = some err)
    (hnf : err.isErrNotFound = false)
    (hex : err.asMoodleException = none) :
    (GetUserByField s b c).trace =
      c.trace ++ [Event.call (Call.GetUserByField req),
        Event.JSON 500 ⟨"INTERNAL_SERVER_ERROR", "Terjadi kesalahan pada server.", Any.null⟩] := by
  simp [GetUserByField, hbind, herr, hnf, hex, Context.JSON, Context.invoke,
    http.StatusInternalServerError]

theorem GetUserByField_opaque_witness :
    (bindOk []).MoodleUserGetByFieldRequest (request "id=7").body = Except.ok "id=7" ∧
      ((constService "" (some errOpaque)).moodleService.GetUserByField "id=7").2
        = some errOpaque ∧
      errOpaque.isErrNotFound = false ∧
      errOpaque.asMoodleException = none ∧
      (GetUserByField (constService "" (some errOpaque)) (bindOk []) (request "id=7")).trace =
        (request "id=7").trace ++
          [Event.call (Call.GetUserByField "id=7"),
            Event.JSON 500
              ⟨"INTERNAL_SERVER_ERROR", "Terjadi kesalahan pada server.", Any.null⟩] :=
  ⟨rfl, rfl, rfl, rfl,
    GetUserByField_opaque (constService "" (some errOpaque)) (bindOk []) (request "id=7")
      "id=7" errOpaque rfl rfl rfl rfl⟩

/-! ## Sync and role assignment: one fixed failure code each -/

/-- C4: in `UserSync` and in `AssignRole`, when the body binds and the delegate
fails with any error (sentinel, structured or opaque), the handler writes
exactly one response: 400 with the fixed code "USER_SYNC_FAILED" (sync) or
"USER_ASSIGN_FAILED" (role assignment) and the error's text as message. Status
and code do not depend on the classification of the error. -/
theorem UserSync_AssignRole_fixed_code (s : MoodleController T) (b : Binder T) (c : Context T) :
    (∀ (req : T.MoodleUserSyncRequest) (err : GoError),
      b.MoodleUserSyncRequest c.body = Except.ok req →
      s.moodleService.UserSync req = some err →
      (UserSync s b c).trace =
        c.trace ++ [Event.call (Call.UserSync req),
          Event.JSON 400 ⟨"USER_SYNC_FAILED", err.Error, Any.null⟩]) ∧
    (∀ (req : T.MoodleRoleAssignRequest) (err : GoError),
      b.MoodleRoleAssignRequest c.body = Except.ok req →
      s.moodleService.AssignRole req = some err →
      (AssignRole s b c).trace =
        c.trace ++ [Event.call (Call.AssignRole req),
          Event.JSON 400 ⟨"USER_ASSIGN_FAILED", err.Error, Any.null⟩]) := by
  constructor
  · intro req err hbind herr
    simp [UserSync, hbind, herr, Context.JSON, Context.invoke, http.StatusBadRequest]
  · intro req err hbind herr
    simp [AssignRole, hbind, herr, Context.JSON, Context.invoke, http.StatusBadRequest]

theorem UserSync_AssignRole_fixed_code_witness :
    ((bindOk []).MoodleUserSyncRequest (request "u1").body = Except.ok "u1" ∧
      (constService "" (some errNotFoundStructured)).moodleService.UserSync "u1"
        = some errNotFoundStructured ∧
      (UserSync (constService "" (some errNotFoundStructured)) (bindOk []) (request "u1")).trace =
        (request "u1").trace ++ [Event.call (Call.UserSync "u1"),
          Event.JSON 400 ⟨"USER_SYNC_FAILED", errNotFoundStructured.Error, Any.null⟩]) ∧
    ((bindOk []).MoodleRoleAssignRequest (request "u1:5").body = Except.ok "u1:5" ∧
      (constService "" (some errOpaque)).moodleService.AssignRole "u1:5" = some errOpaque ∧
      (AssignRole (constService "" (some errOpaque)) (bindOk []) (request "u1:5")).trace =
        (request "u1:5").trace ++ [Event.call (Call.AssignRole "u1:5"),
          Event.JSON 400 ⟨"USER_ASSIGN_FAILED", errOpaque.Error, Any.null⟩]) :=
  ⟨⟨rfl, rfl,
      (UserSync_AssignRole_fixed_code (constService "" (some errNotFoundStructured)) (bindOk [])
        (request "u1")).1 "u1" errNotFoundStructured rfl rfl⟩,
    ⟨rfl, rfl,
      (UserSync_AssignRole_fixed_code (constService "" (some errOpaque)) (bindOk [])
        (request "u1:5")).2 "u1:5" errOpaque rfl rfl⟩⟩

/-! ## Binding failures -/

/-- C5: in each of `CreateUser`, `GetUserByField`, `UpdateUser`, `UserSync` and
`AssignRole`, when binding the body fails the handler writes exactly one
response, with status 400, a code other than "OK" and data either absent or the
decode error text, and it does not call the delegate. -/
theorem bind_failure_rejected (s : MoodleController T) (b : Binder T) (c : Context T)
    (err : GoError) :
    (b.MoodleUserCreateRequest c.body = Except.error err →
      RejectsBody c.trace (CreateUser s b c).trace err) ∧
    (b.MoodleUserGetByFieldRequest c.body = Except.error err →
      RejectsBody c.trace (GetUserByField s b c).trace err) ∧
    (b.MoodleUserUpdateRequests c.body = Except.error err →
      RejectsBody c.trace (UpdateUser s b c).trace err) ∧
    (b.MoodleUserSyncRequest c.body = Except.error err →
      RejectsBody c.trace (UserSync s b c).trace err) ∧
    (b.MoodleRoleAssignRequest c.body = Except.error err →
      RejectsBody c.trace (AssignRole s b c).trace err) := by
  refine ⟨?_, ?_, ?_, ?_, ?_⟩
  · intro h
    exact ⟨⟨"INVALID_PARAMS", err.Error, Any.null⟩,
      by simp [CreateUser, h, Context.JSON, http.StatusBadRequest]⟩
  · intro h
    exact ⟨⟨"INVALID_REQUEST_BODY", "Format body request tidak valid.", Any.str err.Error⟩,
      by simp [GetUserByField, h, Context.JSON, http.StatusBadRequest]⟩
  · intro h
    exact ⟨⟨"INVALID_PARAMS", err.Error, Any.null⟩,
      by simp [UpdateUser, h, Context.JSON, http.StatusBadRequest]⟩
  · intro h
    exact ⟨⟨"INVALID_REQUEST", "Data yang dikirim tidak valid: " ++ err.Error, Any.null⟩,
      by simp [UserSync, h, Context.JSON, http.StatusBadRequest]⟩
  · intro h
    exact ⟨⟨"INVALID_REQUEST", "Data yang dikirim tidak valid: " ++ err.Error, Any.null⟩,
      by simp [AssignRole, h, Context.JSON, http.StatusBadRequest]⟩

theorem bind_failure_rejected_witness :
    ((bindFail errDecode).MoodleUserCreateRequest (request "not json").body = Except.error errDecode ∧
      RejectsBody (request "not json").trace
        (CreateUser (constService "ok" none) (bindFail errDecode) (request "not json")).trace errDecode) ∧
    ((bindFail errDecode).MoodleUserGetByFieldRequest (request "not json").body
        = Except.error errDecode ∧
      RejectsBody (request "not json").trace
        (GetUserByField (constService "ok" none) (bindFail errDecode) (request "not json")).trace
        errDecode) ∧
    ((bindFail errDecode).MoodleUserUpdateRequests (request "not json").body = Except.error errDecode ∧
      RejectsBody (request "not json").trace
        (UpdateUser (constService "ok" none) (bindFail errDecode) (request "not json")).trace errDecode) ∧
    ((bindFail errDecode).MoodleUserSyncRequest (request "not json").body = Except.error errDecode ∧
      RejectsBody (request "not json").trace
        (UserSync (constService "ok" none) (bindFail errDecode) (request "not json")).trace errDecode) ∧
    ((bindFail errDecode).MoodleRoleAssignRequest (request "not json").body = Except.error errDecode ∧
      RejectsBody (request "not json").trace
        (AssignRole (constService "ok" none) (bindFail errDecode) (request "not json")).trace
        errDecode) :=
  ⟨⟨rfl, (bind_failure_rejected (constService "ok" none) (bindFail errDecode) (request "not json")
      errDecode).1 rfl⟩,
    ⟨rfl, (bind_failure_rejected (constService "ok" none) (bindFail errDecode) (request "not json")
      errDecode).2.1 rfl⟩,
    ⟨rfl, (bind_failure_rejected (constService "ok" none) (bindFail errDecode) (request "not json")
      errDecode).2.2.1 rfl⟩,
    ⟨rfl, (bind_failure_rejected (constService "ok" none) (bindFail errDecode) (request "not json")
      errDecode).2.2.2.1 rfl⟩,
    ⟨rfl, (bind_failure_rejected (constService "ok" none) (bindFail errDecode) (request "not json")
      errDecode).2.2.2.2 rfl⟩⟩

/-- C6 fails as stated: `GetUserByField` given a body that does not bind writes
400 with code "INVALID_REQUEST_BODY" and a fixed message; the code is neither
"INVALID_PARAMS" nor "INVALID_REQUEST" and the message is not the decode text. -/
theorem GetUserByField_bind_failure_counterexample :
    (bindFail errDecode).MoodleUserGetByFieldRequest (request "not json").body
        = Except.error errDecode ∧
      writes (GetUserByField (constService "ok" none) (bindFail errDecode)
          (request "not json")).trace =
        [(400, ⟨"INVALID_REQUEST_BODY", "Format body request tidak valid.",
          Any.str "unexpected end of JSON input"⟩)] ∧
      ¬ ∃ obj : ApiResponse String,
        writes (GetUserByField (constService "ok" none) (bindFail errDecode)
          (request "not json")).trace = [(400, obj)] ∧
        (obj.Code = "INVALID_PARAMS" ∨ obj.Code = "INVALID_REQUEST") ∧
        obj.Message = errDecode.Error := by
  refine ⟨rfl, rfl, ?_⟩
  rintro ⟨obj, hw, hcode, -⟩
  have hobj : obj = ⟨"INVALID_REQUEST_BODY", "Format body request tidak valid.",
      Any.str "unexpected end of JSON input"⟩ := by
    have h : writes (GetUserByField (constService "ok" none) (bindFail errDecode)
        (request "not json")).trace =
      [(400, (⟨"INVALID_REQUEST_BODY", "Format body request tidak valid.",
        Any.str "unexpected end of JSON input"⟩ : ApiResponse String))] := rfl
    rw [h] at hw
    simpa using hw.symm
  subst hobj
  simp at hcode

/-- C6 (amended): a binding failure is answered with status 400 in every
body-taking handler. `CreateUser` and `UpdateUser` use code "INVALID_PARAMS"
with the decode error text as message and no data. `UserSync` and `AssignRole`
use code "INVALID_REQUEST" with the message "Data yang dikirim tidak valid: "
followed by the decode error text, and no data. `GetUserByField` uses code
"INVALID_REQUEST_BODY" with the fixed message "Format body request tidak
valid." and carries the decode error text in data. -/
theorem bind_failure_envelope (s : MoodleController T) (b : Binder T) (c : Context T)
    (err : GoError) :
    (b.MoodleUserCreateRequest c.body = Except.error err →
      (CreateUser s b c).trace =
        c.trace ++ [Event.JSON 400 ⟨"INVALID_PARAMS", err.Error, Any.null⟩]) ∧
    (b.MoodleUserUpdateRequests c.body = Except.error err →
      (UpdateUser s b c).trace =
        c.trace ++ [Event.JSON 400 ⟨"INVALID_PARAMS", err.Error, Any.null⟩]) ∧
    (b.MoodleUserSyncRequest c.body = Except.error err →
      (UserSync s b c).trace =
        c.trace ++ [Event.JSON 400
          ⟨"INVALID_REQUEST", "Data yang dikirim tidak valid: " ++ err.Error, Any.null⟩]) ∧
    (b.MoodleRoleAssignRequest c.body = Except.error err →
      (AssignRole s b c).trace =
        c.trace ++ [Event.JSON 400
          ⟨"INVALID_REQUEST", "Data yang dikirim tidak valid: " ++ err.Error, Any.null⟩]) ∧
    (b.MoodleUserGetByFieldRequest c.body = Except.error err →
      (GetUserByField s b c).trace =
        c.trace ++ [Event.JSON 400
          ⟨"INVALID_REQUEST_BODY", "Format body request tidak valid.", Any.str err.Error⟩]) := by
  refine ⟨?_, ?_, ?_, ?_, ?_⟩
  · intro h
    simp [CreateUser, h, Context.JSON, http.StatusBadRequest]
  · intro h
    simp [UpdateUser, h, Context.JSON, http.StatusBadRequest]
  · intro h
    simp [UserSync, h, Context.JSON, http.StatusBadRequest]
  · intro h
    simp [AssignRole, h, Context.JSON, http.StatusBadRequest]
  · intro h
    simp [GetUserByField, h, Context.JSON, http.StatusBadRequest]

theorem bind_failure_envelope_witness :
    ((bindFail errDecode).MoodleUserCreateRequest (request "not json").body
        = Except.error errDecode ∧
      (CreateUser (constService "ok" none) (bindFail errDecode) (request "not json")).trace =
        (request "not json").trace ++
          [Event.JSON 400 ⟨"INVALID_PARAMS", errDecode.Error, Any.null⟩]) ∧
    ((bindFail errDecode).MoodleUserUpdateRequests (request "not json").body
        = Except.error errDecode ∧
      (UpdateUser (constService "ok" none) (bindFail errDecode) (request "not json")).trace =
        (request "not json").trace ++
          [Event.JSON 400 ⟨"INVALID_PARAMS", errDecode.Error, Any.null⟩]) ∧
    ((bindFail errDecode).MoodleUserSyncRequest (request "not json").body
        = Except.error errDecode ∧
      (UserSync (constService "ok" none) (bindFail errDecode) (request "not json")).trace =
        (request "not json").trace ++
          [Event.JSON 400
            ⟨"INVALID_REQUEST", "Data yang dikirim tidak valid: " ++ errDecode.Error,
              Any.null⟩]) ∧
    ((bindFail errDecode).MoodleRoleAssignRequest (request "not json").body
        = Except.error errDecode ∧
      (AssignRole (constService "ok" none) (bindFail errDecode) (request "not json")).trace =
        (request "not json").trace ++
          [Event.JSON 400
            ⟨"INVALID_REQUEST", "Data yang dikirim tidak valid: " ++ errDecode.Error,
              Any.null⟩]) ∧
    ((bindFail errDecode).MoodleUserGetByFieldRequest (request "not json").body
        = Except.error errDecode ∧
      (GetUserByField (constService "ok" none) (bindFail errDecode) (request "not json")).trace =
        (request "not json").trace ++
          [Event.JSON 400
            ⟨"INVALID_REQUEST_BODY", "Format body request tidak valid.",
              Any.str errDecode.Error⟩]) :=
  ⟨⟨rfl, (bind_failure_envelope (constService "ok" none) (bindFail errDecode)
      (request "not json") errDecode).1 rfl⟩,
    ⟨rfl, (bind_failure_envelope (constService "ok" none) (bindFail errDecode)
      (request "not json") errDecode).2.1 rfl⟩,
    ⟨rfl, (bind_failure_envelope (constService "ok" none) (bindFail errDecode)
      (request "not json") errDecode).2.2.1 rfl⟩,
    ⟨rfl, (bind_failure_envelope (constService "ok" none) (bindFail errDecode)
      (request "not json") errDecode).2.2.2.1 rfl⟩,
    ⟨rfl, (bind_failure_envelope (constService "ok" none) (bindFail errDecode)
      (request "not json") errDecode).2.2.2.2 rfl⟩⟩

/-! ## Status check and create: delegate failures -/

/-- C7 fails as stated: `CreateUser` given a body that binds and a delegate that
fails with the not-found sentinel writes 500 "INTERNAL_SERVER_ERROR", not
404 "DATA_NOT_FOUND". -/
theorem CreateUser_not_found_counterexample :
    (bindOk []).MoodleUserCreateRequest (request "u1").body = Except.ok "u1" ∧
      ((constService "" (some errNotFound)).moodleService.CreateUser "u1").2 = some errNotFound ∧
      errNotFound.isErrNotFound = true ∧
      writes (CreateUser (constService "" (some errNotFound)) (bindOk []) (request "u1")).trace =
        [(500, ⟨"INTERNAL_SERVER_ERROR", "data tidak ditemukan", Any.null⟩)] ∧
      writes (CreateUser (constService "" (some errNotFound)) (bindOk []) (request "u1")).trace ≠
        [(404, ⟨"DATA_NOT_FOUND", errNotFound.Error, Any.null⟩)] := by
  refine ⟨rfl, rfl, rfl, rfl, ?_⟩
  have h : writes (CreateUser (constService "" (some errNotFound)) (bindOk [])
      (request "u1")).trace =
    [(500, (⟨"INTERNAL_SERVER_ERROR", "data tidak ditemukan", Any.null⟩ : ApiResponse String))] :=
    rfl
  rw [h]
  simp

/-- C7 (amended): `CheckStatus` and `CreateUser` do not classify a delegate
failure. For every delegate error, of any kind, `CreateUser` (after a successful
bind) writes exactly one response, 500 "INTERNAL_SERVER_ERROR" with the error's
text as message and no data; and the first response `CheckStatus` writes is that
same 500 envelope. -/
theorem CheckStatus_CreateUser_failure (s : MoodleController T) (b : Binder T) (c : Context T) :
    (∀ err : GoError, s.moodleService.CheckStatus.2 = some err →
      ∃ rest : List (Event T), (CheckStatus s c).trace =
        c.trace ++ [Event.call Call.CheckStatus,
          Event.JSON 500 ⟨"INTERNAL_SERVER_ERROR", err.Error, Any.null⟩] ++ rest) ∧
    (∀ (req : T.MoodleUserCreateRequest) (err : GoError),
      b.MoodleUserCreateRequest c.body = Except.ok req →
      (s.moodleService.CreateUser req).2 = some err →
      (CreateUser s b c).trace =
        c.trace ++ [Event.call (Call.CreateUser req),
          Event.JSON 500 ⟨"INTERNAL_SERVER_ERROR", err.Error, Any.null⟩]) := by
  constructor
  · intro err herr
    refine ⟨[Event.JSON 200 ⟨"OK", "OK", Any.val s.moodleService.CheckStatus.1⟩], ?_⟩
    simp [CheckStatus, herr, Context.JSON, Context.invoke, http.StatusInternalServerError,
      http.StatusOK]
  · intro req err hbind herr
    simp [CreateUser, hbind, herr, Context.JSON, Context.invoke, http.StatusInternalServerError]

theorem CheckStatus_CreateUser_failure_witness :
    ((constService "down" (some errNotFound)).moodleService.CheckStatus.2 = some errNotFound ∧
      ∃ rest : List (Event TextTypes),
        (CheckStatus (constService "down" (some errNotFound)) (request "")).trace =
          (request "").trace ++ [Event.call Call.CheckStatus,
            Event.JSON 500 ⟨"INTERNAL_SERVER_ERROR", errNotFound.Error, Any.null⟩] ++ rest) ∧
    ((bindOk []).MoodleUserCreateRequest (request "u1").body = Except.ok "u1" ∧
      ((constService "" (some errMoodle)).moodleService.CreateUser "u1").2 = some errMoodle ∧
      (CreateUser (constService "" (some errMoodle)) (bindOk []) (request "u1")).trace =
        (request "u1").trace ++ [Event.call (Call.CreateUser "u1"),
          Event.JSON 500 ⟨"INTERNAL_SERVER_ERROR", errMoodle.Error, Any.null⟩]) :=
  ⟨⟨rfl, (CheckStatus_CreateUser_failure (constService "down" (some errNotFound)) (bindOk [])
      (request "")).1 errNotFound rfl⟩,
    ⟨rfl, rfl, (CheckStatus_CreateUser_failure (constService "" (some errMoodle)) (bindOk [])
      (request "u1")).2 "u1" errMoodle rfl rfl⟩⟩

/-! ## Bulk update -/

/-- C8 fails as stated: for the same bound sequence, `UpdateUser` answers a
structured exception with status 400 and the exception's code, and an opaque
error with status 500 and code "INTERNAL_SERVER_ERROR". -/
theorem UpdateUser_failure_counterexample :
    writes (UpdateUser (constService "" (some errMoodle)) (bindOk ["a", "b"])
        (request "[a,b]")).trace =
      [(400, ⟨"invalidparameter", "Invalid parameter value detected", Any.null⟩)] ∧
    writes (UpdateUser (constService "" (some errOpaque)) (bindOk ["a", "b"])
        (request "[a,b]")).trace =
      [(500, ⟨"INTERNAL_SERVER_ERROR", "An internal error occurred",
        Any.str "dial tcp 10.0.0.7:443: connection refused"⟩)] ∧
    (writes (UpdateUser (constService "" (some errMoodle)) (bindOk ["a", "b"])
        (request "[a,b]")).trace).map (fun w => (w.1, w.2.Code)) ≠
      (writes (UpdateUser (constService "" (some errOpaque)) (bindOk ["a", "b"])
        (request "[a,b]")).trace).map (fun w => (w.1, w.2.Code)) := by
  refine ⟨rfl, rfl, ?_⟩
  have h1 : (writes (UpdateUser (constService "" (some errMoodle)) (bindOk ["a", "b"])
      (request "[a,b]")).trace).map (fun w => (w.1, w.2.Code)) = [(400, "invalidparameter")] :=
    rfl
  have h2 : (writes (UpdateUser (constService "" (some errOpaque)) (bindOk ["a", "b"])
      (request "[a,b]")).trace).map (fun w => (w.1, w.2.Code))
        = [(500, "INTERNAL_SERVER_ERROR")] :=
    rfl
  rw [h1, h2]
  simp

/-- C8 (amended): `UpdateUser` classifies a delegate failure in two classes.
For a bound sequence, a structured exception with code `X` and message `Y`
(whether or not it matches the not-found sentinel) yields exactly one response,
400 with code `X`, message `Y` and no data; every other error yields exactly
one response, 500 "INTERNAL_SERVER_ERROR" with the fixed message "An internal
error occurred" and the error's text in data. -/
theorem UpdateUser_failure (s : MoodleController T) (b : Binder T) (c : Context T)
    (req : List T.MoodleUserUpdateRequest) (err : GoError)
    (hbind : b.MoodleUserUpdateRequests c.body = Except.ok req)
    (herr : s.moodleService.UpdateUsers req = some err) :
    (∀ X Y : String, err.asMoodleException = some ⟨X, Y⟩ →
      (UpdateUser s b c).trace =
        c.trace ++ [Event.call (Call.UpdateUsers req), Event.JSON 400 ⟨X, Y, Any.null⟩]) ∧
    (err.asMoodleException = none →
      (UpdateUser s b c).trace =
        c.trace ++ [Event.call (Call.UpdateUsers req),
          Event.JSON 500
            ⟨"INTERNAL_SERVER_ERROR", "An internal error occurred", Any.str err.Error⟩]) := by
  constructor
  · intro X Y hex
    simp [UpdateUser, hbind, herr, hex, Context.JSON, Context.invoke, http.StatusBadRequest]
  · intro hex
    simp [UpdateUser, hbind, herr, hex, Context.JSON, Context.invoke,
      http.StatusInternalServerError]

theorem UpdateUser_failure_witness :
    ((bindOk ["a", "b"]).MoodleUserUpdateRequests (request "[a,b]").body = Except.ok ["a", "b"] ∧
      (constService "" (some errNotFoundStructured)).moodleService.UpdateUsers ["a", "b"]
        = some errNotFoundStructured ∧
      errNotFoundStructured.asMoodleException = some ⟨"invaliduser", "user tidak ditemukan"⟩ ∧
      (UpdateUser (constService "" (some errNotFoundStructured)) (bindOk ["a", "b"])
          (request "[a,b]")).trace =
        (request "[a,b]").trace ++ [Event.call (Call.UpdateUsers ["a", "b"]),
          Event.JSON 400 ⟨"invaliduser", "user tidak ditemukan", Any.null⟩]) ∧
    ((bindOk ["a", "b"]).MoodleUserUpdateRequests (request "[a,b]").body = Except.ok ["a", "b"] ∧
      (constService "" (some errNotFound)).moodleService.UpdateUsers ["a", "b"]
        = some errNotFound ∧
      errNotFound.asMoodleException = none ∧
      (UpdateUser (constService "" (some errNotFound)) (bindOk ["a", "b"])
          (request "[a,b]")).trace =
        (request "[a,b]").trace ++ [Event.call (Call.UpdateUsers ["a", "b"]),
          Event.JSON 500
            ⟨"INTERNAL_SERVER_ERROR", "An internal error occurred",
              Any.str errNotFound.Error⟩]) :=
  ⟨⟨rfl, rfl, rfl,
      (UpdateUser_failure (constService "" (some errNotFoundStructured)) (bindOk ["a", "b"])
        (request "[a,b]") ["a", "b"] errNotFoundStructured rfl rfl).1
        "invaliduser" "user tidak ditemukan" rfl⟩,
    ⟨rfl, rfl, rfl,
      (UpdateUser_failure (constService "" (some errNotFound)) (bindOk ["a", "b"])
        (request "[a,b]") ["a", "b"] errNotFound rfl rfl).2 rfl⟩⟩

/-- C9: in `UpdateUser`, when the body binds to a sequence of update records
(of any length) and the delegate succeeds, the delegate is called exactly once,
with the whole sequence in its bound order, and the handler writes exactly one
response: 200 with code "OK", message "Users updated successfully", no data. -/
theorem UpdateUser_success (s : MoodleController T) (b : Binder T) (c : Context T)
    (req : List T.MoodleUserUpdateRequest)
    (hbind : b.MoodleUserUpdateRequests c.body = Except.ok req)
    (hok : s.moodleService.UpdateUsers req = none) :
    (UpdateUser s b c).trace =
        c.trace ++ [Event.call (Call.UpdateUsers req),
          Event.JSON 200 ⟨"OK", "Users updated successfully", Any.null⟩] ∧
      calls (UpdateUser s b c).trace = calls c.trace ++ [Call.UpdateUsers req] ∧
      writes (UpdateUser s b c).trace =
        writes c.trace ++ [(200, ⟨"OK", "Users updated successfully", Any.null⟩)] := by
  have h : (UpdateUser s b c).trace =
      c.trace ++ [Event.call (Call.UpdateUsers req),
        Event.JSON 200 ⟨"OK", "Users updated successfully", Any.null⟩] := by
    simp [UpdateUser, hbind, hok, Context.JSON, Context.invoke, http.StatusOK]
  refine ⟨h, ?_, ?_⟩ <;> simp [h]

theorem UpdateUser_success_witness :
    (bindOk ["u3", "u1", "u2"]).MoodleUserUpdateRequests (request "[u3,u1,u2]").body
        = Except.ok ["u3", "u1", "u2"] ∧
      (constService "" none).moodleService.UpdateUsers ["u3", "u1", "u2"] = none ∧
      ((UpdateUser (constService "" none) (bindOk ["u3", "u1", "u2"])
          (request "[u3,u1,u2]")).trace =
        (request "[u3,u1,u2]").trace ++ [Event.call (Call.UpdateUsers ["u3", "u1", "u2"]),
          Event.JSON 200 ⟨"OK", "Users updated successfully", Any.null⟩] ∧
      calls (UpdateUser (constService "" none) (bindOk ["u3", "u1", "u2"])
          (request "[u3,u1,u2]")).trace =
        calls (request "[u3,u1,u2]").trace ++ [Call.UpdateUsers ["u3", "u1", "u2"]] ∧
      writes (UpdateUser (constService "" none) (bindOk ["u3", "u1", "u2"])
          (request "[u3,u1,u2]")).trace =
        writes (request "[u3,u1,u2]").trace ++
          [(200, ⟨"OK", "Users updated successfully", Any.null⟩)]) :=
  ⟨rfl, rfl,
    UpdateUser_success (constService "" none) (bindOk ["u3", "u1", "u2"]) (request "[u3,u1,u2]")
      ["u3", "u1", "u2"] rfl rfl⟩

/-! ## Number of response writes per handler -/

/-- C10: `CheckStatus` writes twice when the delegate fails, first the error
envelope (500, "INTERNAL_SERVER_ERROR", error text, no data) and then the
success envelope (200, "OK", "OK", result), and once, the success envelope,
when the delegate succeeds. Each of `CreateUser`, `GetUserByField`,
`UpdateUser`, `UserSync` and `AssignRole` adds exactly one response write to
the trace, whatever the body, the binder and the service. -/
theorem CheckStatus_double_write (s : MoodleController T) (b : Binder T) (c : Context T) :
    (∀ err : GoError, s.moodleService.CheckStatus.2 = some err →
      (CheckStatus s c).trace =
        c.trace ++ [Event.call Call.CheckStatus,
          Event.JSON 500 ⟨"INTERNAL_SERVER_ERROR", err.Error, Any.null⟩,
          Event.JSON 200 ⟨"OK", "OK", Any.val s.moodleService.CheckStatus.1⟩]) ∧
    (s.moodleService.CheckStatus.2 = none →
      (CheckStatus s c).trace =
        c.trace ++ [Event.call Call.CheckStatus,
          Event.JSON 200 ⟨"OK", "OK", Any.val s.moodleService.CheckStatus.1⟩]) ∧
    (∃ w, writes (CreateUser s b c).trace = writes c.trace ++ [w]) ∧
    (∃ w, writes (GetUserByField s b c).trace = writes c.trace ++ [w]) ∧
    (∃ w, writes (UpdateUser s b c).trace = writes c.trace ++ [w]) ∧
    (∃ w, writes (UserSync s b c).trace = writes c.trace ++ [w]) ∧
    (∃ w, writes (AssignRole s b c).trace = writes c.trace ++ [w]) := by
  refine ⟨?_, ?_, ?_, ?_, ?_, ?_, ?_⟩
  · intro err herr
    simp [CheckStatus, herr, Context.JSON, Context.invoke, http.StatusInternalServerError,
      http.StatusOK]
  · intro hok
    simp [CheckStatus, hok, Context.JSON, Context.invoke, http.StatusOK]
  · simp only [CreateUser]
    split
    · simp [Context.JSON]
    · split <;> simp [Context.JSON, Context.invoke]
  · simp only [GetUserByField]
    split
    · simp [Context.JSON]
    · split
      · split
        · simp [Context.JSON, Context.invoke]
        · split <;> simp [Context.JSON, Context.invoke]
      · simp [Context.JSON, Context.invoke]
  · simp only [UpdateUser]
    split
    · simp [Context.JSON]
    · split
      · split <;> simp [Context.JSON, Context.invoke]
      · simp [Context.JSON, Context.invoke]
  · simp only [UserSync]
    split
    · simp [Context.JSON]
    · split <;> simp [Context.JSON, Context.invoke]
  · simp only [AssignRole]
    split
    · simp [Context.JSON]
    · split <;> simp [Context.JSON, Context.invoke]

theorem CheckStatus_double_write_witness :
    ((constService "down" (some errOpaque)).moodleService.CheckStatus.2 = some errOpaque ∧
      (CheckStatus (constService "down" (some errOpaque)) (request "")).trace =
        (request "").trace ++ [Event.call Call.CheckStatus,
          Event.JSON 500 ⟨"INTERNAL_SERVER_ERROR", errOpaque.Error, Any.null⟩,
          Event.JSON 200 ⟨"OK", "OK",
            Any.val (constService "down" (some errOpaque)).moodleService.CheckStatus.1⟩]) ∧
    ((constService "up" none).moodleService.CheckStatus.2 = none ∧
      (CheckStatus (constService "up" none) (request "")).trace =
        (request "").trace ++ [Event.call Call.CheckStatus,
          Event.JSON 200 ⟨"OK", "OK",
            Any.val (constService "up" none).moodleService.CheckStatus.1⟩]) :=
  ⟨⟨rfl, (CheckStatus_double_write (constService "down" (some errOpaque)) (bindOk [])
      (request "")).1 errOpaque rfl⟩,
    ⟨rfl, (CheckStatus_double_write (constService "up" none) (bindOk [])
      (request "")).2.1 rfl⟩⟩

end MoodleApi
